import Mathlib

/-!
Shallow embedding of the QGIS plugin `src/DSM_DTM_extractor.py`.

The plugin's `run` method is a single linear pipeline: it partitions the
workspace layers into vector and raster layers, lets the operator pick four
layers (centerline, buffer polygon, DTM raster, DSM raster), buffers the
centerline, converts the buffer boundary to lines, merges it with the
centerline, samples points along the merged line network, builds a grid over
the buffer layer's extent, clips it to the buffer layer, takes centroids,
removes the centroids that intersect the freshly buffered corridor polygon
(select by location, invert selection, save selected), merges the line points
with the surviving centroids, and finally runs a per-band raster-extraction
loop for each of the two rasters, registering one output layer per band.

The external geoprocessing engine (the QGIS `processing.run` algorithms and
the SAGA `addrastervaluestopoints` tool) is modelled as an abstract `Engine`
record of functions over opaque geometry identifiers.  The pipeline logic,
the literal parameter tuples passed to each algorithm, the control flow, the
layer-registration behaviour and the error behaviour are translated from the
source file.  Attributes carried over from the input files are irrelevant to
the pipeline and are modelled as absent; only the raster attributes attached
by the extraction loops are tracked.
-/

namespace DSMDTM

/-- Abstract geometry identifier: geometries are opaque to the pipeline. -/
abbrev Geom := Nat

/-- A vector layer loaded in the workspace (`QgsVectorLayer`): display name,
coordinate reference system, bounding extent (opaque), and its feature
geometries. -/
structure VectorLayer where
  name : String
  crsId : Nat
  extentId : Nat
  feats : List Geom
deriving DecidableEq, Repr

/-- A raster layer loaded in the workspace (`QgsRasterLayer`): display name,
coordinate reference system and its band count (`bandCount()`). -/
structure RasterLayer where
  name : String
  crsId : Nat
  bandCount : Nat
deriving DecidableEq, Repr

/-- A dataset in the workspace: `QgsProject.instance().mapLayers().values()`
yields vector and raster layers. -/
inductive Dataset where
  | vector : VectorLayer → Dataset
  | raster : RasterLayer → Dataset
deriving DecidableEq, Repr

/-- A point feature: geometry plus the raster attributes attached so far. -/
structure Pt where
  geom : Geom
  attrs : List (String × Int)
deriving DecidableEq, Repr

/-- A point feature set (intermediate `memory:` point layer). -/
structure PFS where
  crsId : Nat
  pts : List Pt
deriving DecidableEq, Repr

/-- A line/polygon feature set (intermediate `memory:` layer holding bare
geometries). -/
structure GeomSet where
  crsId : Nat
  feats : List Geom
deriving DecidableEq, Repr

/-- The external geoprocessing engine.  Each field abstracts one geometric or
raster operation whose internals live outside the plugin: `bufferOut` the
geometric result of `native:buffer` (at the fixed parameters the plugin
passes), `boundaryLines` of `native:polygonstolines`, `pointsAlongGeoms` of
`native:pointsalonglines` at distance 5, `gridCells` of `native:creategrid`
over a given extent, `clipGeoms` of `native:clip`, `centroidOf` of
`native:centroids`, `intersects` the spatial predicate used by
`qgis:selectbylocation`, `sampleOk` whether the SAGA
`addrastervaluestopoints` call on a raster/band succeeds, `sampleVal` the
sampled raster value at a point, and `pyRepr` the Python string formatting of
a raster layer object (used in the DSM output layer name). -/
structure Engine where
  bufferOut : List Geom → List Geom
  boundaryLines : List Geom → List Geom
  pointsAlongGeoms : List Geom → List Geom
  gridCells : Nat → List Geom
  clipGeoms : List Geom → List Geom → List Geom
  centroidOf : Geom → Geom
  intersects : Geom → List Geom → Bool
  sampleOk : String → Nat → Bool
  sampleVal : String → Nat → Geom → Int
  pyRepr : String → String

/-- One invocation of an external processing algorithm, with the parameter
values the plugin passes (CRS parameters recorded by id). -/
inductive Call where
  | bufferCall (distance segments capStyle joinStyle miterLimit : Nat) (dissolve : Bool)
  | polygonsToLines
  | mergeVector (crsId : Nat)
  | pointsAlong (distance startOffset endOffset : Nat)
  | createGrid (gtype hSpacing vSpacing hOverlay vOverlay : Nat) (crsId : Nat)
  | clip
  | centroids (allParts : Bool)
  | selectByLocation (predicate method : Nat)
  | saveSelected
  | sampleRaster (rasterName : String) (band : Nat) (fieldName : String) (resampling : Nat)
deriving DecidableEq, Repr

/-- How a run can abort: the not-enough-layers message, the cancelled
layer-selection message, a failing SAGA raster-sampling call (Python
exception), or the Python `NameError` raised when the DSM loop reads
`raster_values_output` and the DTM loop never assigned it. -/
inductive RunError where
  | insufficientInputs
  | selectionCancelled
  | rasterSampling (rasterName : String) (band : Nat)
  | nameErrorRasterValues
deriving DecidableEq, Repr

/-- Observable outcome of one `run` invocation: the selection prompts shown,
the processing calls issued, the names of the layers registered with
`QgsProject.instance().addMapLayer`, the error (if the run aborted), and the
final DSM-enriched point set (output of the last DSM band iteration). -/
structure RunOutcome where
  promptsShown : List String
  trace : List Call
  registered : List String
  error : Option RunError
  terminalOutput : Option PFS
deriving DecidableEq, Repr

/- ------------------------------------------------------------------ -/
/- Pipeline stages (steps 1-8 of `run`).                               -/
/- ------------------------------------------------------------------ -/

/-- Step 1: `native:buffer` on the centerline (DISTANCE 2, SEGMENTS 5,
END_CAP_STYLE 0, JOIN_STYLE 0, MITER_LIMIT 2, DISSOLVE False).  The output
keeps the input layer's CRS. -/
def bufferOutput (eng : Engine) (cl : VectorLayer) : GeomSet :=
  { crsId := cl.crsId, feats := eng.bufferOut cl.feats }

/-- Step 2: `native:polygonstolines` on the buffer output. -/
def polyToLineOutput (eng : Engine) (cl : VectorLayer) : GeomSet :=
  { crsId := (bufferOutput eng cl).crsId
    feats := eng.boundaryLines (bufferOutput eng cl).feats }

/-- `native:mergevectorlayers` on bare-geometry layers: concatenation of the
inputs' features, with the explicitly passed CRS. -/
def mergeVectorLayers (inputs : List (List Geom)) (crs : Nat) : GeomSet :=
  { crsId := crs, feats := inputs.flatten }

/-- `native:mergevectorlayers` on point layers: concatenation of the inputs'
points, with the explicitly passed CRS. -/
def mergePointLayers (inputs : List (List Pt)) (crs : Nat) : PFS :=
  { crsId := crs, pts := inputs.flatten }

/-- Step 3: merge the boundary lines with the original centerline,
CRS taken from `centerline_layer.crs()`. -/
def mergeOutput (eng : Engine) (cl : VectorLayer) : GeomSet :=
  mergeVectorLayers [(polyToLineOutput eng cl).feats, cl.feats] cl.crsId

/-- Step 4: `native:pointsalonglines` on the merged network (DISTANCE 5,
offsets 0); the output keeps the input layer's CRS and its points carry no
raster attributes yet. -/
def pointsAlongOutput (eng : Engine) (cl : VectorLayer) : PFS :=
  { crsId := (mergeOutput eng cl).crsId
    pts := (eng.pointsAlongGeoms (mergeOutput eng cl).feats).map
      (fun g => { geom := g, attrs := [] }) }

/-- Step 5a: `native:creategrid` (TYPE 2, HSPACING 5, VSPACING 5, overlays 0)
over `buffer_layer.extent()` with CRS `buffer_layer.crs()`. -/
def gridOutput (eng : Engine) (bl : VectorLayer) : GeomSet :=
  { crsId := bl.crsId, feats := eng.gridCells bl.extentId }

/-- Step 5b: `native:clip` of the grid against the user-selected buffer
layer. -/
def clippedGridOutput (eng : Engine) (bl : VectorLayer) : GeomSet :=
  { crsId := (gridOutput eng bl).crsId
    feats := eng.clipGeoms (gridOutput eng bl).feats bl.feats }

/-- Step 6: `native:centroids` (ALLPARTS False) of the clipped grid. -/
def centroidsOutput (eng : Engine) (bl : VectorLayer) : PFS :=
  { crsId := (clippedGridOutput eng bl).crsId
    pts := (clippedGridOutput eng bl).feats.map
      (fun g => { geom := eng.centroidOf g, attrs := [] }) }

/-- Step 7a: `qgis:selectbylocation` (PREDICATE intersects, METHOD new
selection): the boolean selection mask over the centroids, true where a
centroid intersects the step-1 buffer output (`INTERSECT: buffer_output`). -/
def selectionMask (eng : Engine) (cl bl : VectorLayer) : List Bool :=
  (centroidsOutput eng bl).pts.map
    (fun p => eng.intersects p.geom (bufferOutput eng cl).feats)

/-- Step 7b: `invertSelection()` on the centroid layer. -/
def invertedMask (eng : Engine) (cl bl : VectorLayer) : List Bool :=
  (selectionMask eng cl bl).map (fun b => !b)

/-- Step 7c: `native:saveselectedfeatures`: materialize the centroids whose
inverted-mask entry is set. -/
def remainingCentroids (eng : Engine) (cl bl : VectorLayer) : PFS :=
  { crsId := (centroidsOutput eng bl).crsId
    pts := (((centroidsOutput eng bl).pts.zip (invertedMask eng cl bl)).filter
      (fun pb => pb.2)).map (fun pb => pb.1) }

/-- Step 8: merge the line-sampled points (step 4) with the surviving
centroids (step 7), CRS taken from `points_along_output.crs()`. -/
def mergedOutput (eng : Engine) (cl bl : VectorLayer) : PFS :=
  mergePointLayers
    [(pointsAlongOutput eng cl).pts, (remainingCentroids eng cl bl).pts]
    (pointsAlongOutput eng cl).crsId

/- ------------------------------------------------------------------ -/
/- Raster extraction (steps 9-10 of `run`).                            -/
/- ------------------------------------------------------------------ -/

/-- Field name used for DTM band `b`: the f-string `DTM_Band_{band_index}`. -/
def dtmFieldName (b : Nat) : String := "DTM_Band_" ++ toString b

/-- Field name used for DSM band `b`: the f-string `DSM_Band_{band_index}`. -/
def dsmFieldName (b : Nat) : String := "DSM_Band_" ++ toString b

/-- One `sagang:addrastervaluestopoints` call: append the sampled value for
the given band as a new named attribute on every point (RESAMPLING 3). -/
def addRasterValues (eng : Engine) (raster : RasterLayer) (band : Nat)
    (fieldName : String) (input : PFS) : PFS :=
  { crsId := input.crsId
    pts := input.pts.map (fun p =>
      { geom := p.geom
        attrs := p.attrs ++ [(fieldName, eng.sampleVal raster.name band p.geom)] }) }

/-- The band indices `range(1, band_count + 1)` = `[1, ..., n]`. -/
def bandList : Nat → List Nat
  | 0 => []
  | n + 1 => bandList n ++ [n + 1]

/-- Result of one per-raster extraction loop: the sampling calls issued, the
layer names registered, the last successfully produced output (the value of
the loop's output variable after the loop), and the band whose sampling call
raised, if any. -/
structure LoopResult where
  trace : List Call
  registered : List String
  lastOutput : Option PFS
  failedBand : Option Nat
deriving Repr

/-- The extraction loop body, iterated over a band list.  Faithful to the
source: the `SHAPES` input is the same `input` on every iteration (the loop
variable is not fed back), each successful call registers one layer named by
`regNameOf`, and a failing call aborts the loop (the exception propagates)
with nothing further registered. -/
def bandLoop (eng : Engine) (raster : RasterLayer) (input : PFS)
    (fieldOf : Nat → String) (regNameOf : Nat → String) : List Nat → LoopResult
  | [] => { trace := [], registered := [], lastOutput := none, failedBand := none }
  | b :: rest =>
    if eng.sampleOk raster.name b then
      { trace := Call.sampleRaster raster.name b (fieldOf b) 3 ::
          (bandLoop eng raster input fieldOf regNameOf rest).trace
        registered := regNameOf b ::
          (bandLoop eng raster input fieldOf regNameOf rest).registered
        lastOutput := some
          (((bandLoop eng raster input fieldOf regNameOf rest).lastOutput).getD
            (addRasterValues eng raster b (fieldOf b) input))
        failedBand := (bandLoop eng raster input fieldOf regNameOf rest).failedBand }
    else
      { trace := [Call.sampleRaster raster.name b (fieldOf b) 3]
        registered := []
        lastOutput := none
        failedBand := some b }

/-- Step 9: the DTM extraction loop.  `SHAPES` is `merged_output` on every
iteration; each band registers a layer named `DTM_Band_{band_index}`. -/
def dtmLoopResult (eng : Engine) (cl bl : VectorLayer) (dtm : RasterLayer) : LoopResult :=
  bandLoop eng dtm (mergedOutput eng cl bl) dtmFieldName dtmFieldName
    (bandList dtm.bandCount)

/-- Step 10: the DSM extraction loop.  `SHAPES` is `raster_values_output`
(the last DTM band's output) on every iteration; each band registers a layer
named by the f-string `{dsm_raster_layer}+_DSM`, which formats the layer
object (modelled by `pyRepr`). -/
def dsmLoopResult (eng : Engine) (dsm : RasterLayer) (inp : PFS) : LoopResult :=
  bandLoop eng dsm inp dsmFieldName (fun _ => eng.pyRepr dsm.name ++ "+_DSM")
    (bandList dsm.bandCount)

/-- The fixed sequence of geometry-processing calls issued by steps 1-8, with
the parameter values the source passes. -/
def coreFixedTrace (eng : Engine) (cl bl : VectorLayer) : List Call :=
  [Call.bufferCall 2 5 0 0 2 false,
   Call.polygonsToLines,
   Call.mergeVector cl.crsId,
   Call.pointsAlong 5 0 0,
   Call.createGrid 2 5 5 0 0 bl.crsId,
   Call.clip,
   Call.centroids false,
   Call.selectByLocation 0 0,
   Call.saveSelected,
   Call.mergeVector (pointsAlongOutput eng cl).crsId]

/-- The processing part of `run` (everything after the four layer
selections), for the chosen centerline `cl`, buffer layer `bl` and rasters
`dtm`, `dsm`.  The DTM loop runs first; if a band's sampling call fails the
exception aborts the run with the layers registered so far kept.  If the DTM
loop ran zero iterations and the DSM loop has at least one iteration, the
first DSM iteration reads the unassigned `raster_values_output` and raises a
`NameError` before any DSM sampling call is issued. -/
def processCore (eng : Engine) (cl bl : VectorLayer) (dtm dsm : RasterLayer)
    (prompts : List String) : RunOutcome :=
  match (dtmLoopResult eng cl bl dtm).failedBand with
  | some b =>
      { promptsShown := prompts
        trace := coreFixedTrace eng cl bl ++ (dtmLoopResult eng cl bl dtm).trace
        registered := (dtmLoopResult eng cl bl dtm).registered
        error := some (RunError.rasterSampling dtm.name b)
        terminalOutput := none }
  | none =>
      if dsm.bandCount = 0 then
        { promptsShown := prompts
          trace := coreFixedTrace eng cl bl ++ (dtmLoopResult eng cl bl dtm).trace
          registered := (dtmLoopResult eng cl bl dtm).registered
          error := none
          terminalOutput := none }
      else
        match (dtmLoopResult eng cl bl dtm).lastOutput with
        | none =>
            { promptsShown := prompts
              trace := coreFixedTrace eng cl bl ++ (dtmLoopResult eng cl bl dtm).trace
              registered := (dtmLoopResult eng cl bl dtm).registered
              error := some RunError.nameErrorRasterValues
              terminalOutput := none }
        | some inp =>
            match (dsmLoopResult eng dsm inp).failedBand with
            | some b =>
                { promptsShown := prompts
                  trace := coreFixedTrace eng cl bl ++
                    ((dtmLoopResult eng cl bl dtm).trace ++ (dsmLoopResult eng dsm inp).trace)
                  registered := (dtmLoopResult eng cl bl dtm).registered ++
                    (dsmLoopResult eng dsm inp).registered
                  error := some (RunError.rasterSampling dsm.name b)
                  terminalOutput := none }
            | none =>
                { promptsShown := prompts
                  trace := coreFixedTrace eng cl bl ++
                    ((dtmLoopResult eng cl bl dtm).trace ++ (dsmLoopResult eng dsm inp).trace)
                  registered := (dtmLoopResult eng cl bl dtm).registered ++
                    (dsmLoopResult eng dsm inp).registered
                  error := none
                  terminalOutput := (dsmLoopResult eng dsm inp).lastOutput }

/- ------------------------------------------------------------------ -/
/- Layer selection and the full run.                                   -/
/- ------------------------------------------------------------------ -/

/-- The vector layers of the workspace, in iteration order. -/
def vectorsOf : List Dataset → List VectorLayer
  | [] => []
  | Dataset.vector v :: rest => v :: vectorsOf rest
  | Dataset.raster _ :: rest => vectorsOf rest

/-- The raster layers of the workspace, in iteration order. -/
def rastersOf : List Dataset → List RasterLayer
  | [] => []
  | Dataset.vector _ :: rest => rastersOf rest
  | Dataset.raster r :: rest => r :: rastersOf rest

/-- The `selectLayer` helper: shows a non-editable item dialog with the
layers' names under the given title and returns the first layer whose name
matches the dialog result, or nothing on cancel (or an empty/unknown name).
The operator is modelled as a function from prompt title to dialog result
(`none` = cancel).  The first component records the prompt that was shown. -/
def selectLayer {α : Type} (op : String → Option String) (getName : α → String)
    (layers : List α) (title : String) : String × Option α :=
  (title,
    match op title with
    | some nm => if nm = "" then none else layers.find? (fun l => getName l = nm)
    | none => none)

/-- The title of the centerline selection prompt. -/
def centerlineTitle : String := "Select the Centerline Layer"

/-- The title of the buffer-layer selection prompt. -/
def bufferTitle : String := "Select the Buffer Layer"

/-- The title of the DTM raster selection prompt. -/
def dtmTitle : String := "Select the DTM Raster Layer"

/-- The title of the DSM raster selection prompt. -/
def dsmTitle : String := "Select the DSM Raster Layer"

/-- The plugin's `run` method as a function of the engine, the operator's
dialog responses and the workspace contents.  It partitions the workspace
layers, aborts with the not-enough-layers message if fewer than 2 vector or
fewer than 2 raster layers are present (before any prompt), shows all four
selection prompts, aborts with the cancellation message if any selection
came back empty, and otherwise runs the processing pipeline. -/
def run (eng : Engine) (op : String → Option String) (ws : List Dataset) : RunOutcome :=
  if (vectorsOf ws).length < 2 ∨ (rastersOf ws).length < 2 then
    { promptsShown := [], trace := [], registered := []
      error := some RunError.insufficientInputs, terminalOutput := none }
  else
    match (selectLayer op VectorLayer.name (vectorsOf ws) centerlineTitle).2,
          (selectLayer op VectorLayer.name (vectorsOf ws) bufferTitle).2,
          (selectLayer op RasterLayer.name (rastersOf ws) dtmTitle).2,
          (selectLayer op RasterLayer.name (rastersOf ws) dsmTitle).2 with
    | some cl, some bl, some dtm, some dsm =>
        processCore eng cl bl dtm dsm [centerlineTitle, bufferTitle, dtmTitle, dsmTitle]
    | _, _, _, _ =>
        { promptsShown := [centerlineTitle, bufferTitle, dtmTitle, dsmTitle]
          trace := [], registered := []
          error := some RunError.selectionCancelled, terminalOutput := none }

/- ------------------------------------------------------------------ -/
/- Trace observations.                                                 -/
/- ------------------------------------------------------------------ -/

/-- The CRS parameter of the first grid-creation call in a trace. -/
def gridCrsOf : List Call → Option Nat
  | [] => none
  | c :: rest =>
    match c with
    | Call.createGrid _ _ _ _ _ crs => some crs
    | _ => gridCrsOf rest

/-- The CRS parameters of the merge calls in a trace, in order. -/
def mergeCrsList : List Call → List Nat
  | [] => []
  | c :: rest =>
    match c with
    | Call.mergeVector crs => crs :: mergeCrsList rest
    | _ => mergeCrsList rest

/-- The parameter tuple of the first buffer call in a trace. -/
def bufferCallOf : List Call → Option (Nat × Nat × Nat × Nat × Nat × Bool)
  | [] => none
  | c :: rest =>
    match c with
    | Call.bufferCall d s cap j m dv => some (d, s, cap, j, m, dv)
    | _ => bufferCallOf rest

/-- The number of raster-sampling calls in a trace. -/
def sampleCallCount : List Call → Nat
  | [] => 0
  | c :: rest =>
    match c with
    | Call.sampleRaster _ _ _ _ => sampleCallCount rest + 1
    | _ => sampleCallCount rest

/-- End-cap styles in the order the engine's buffer END_CAP_STYLE parameter
enumerates them (QGIS `native:buffer`: 0 Round, 1 Flat, 2 Square). -/
inductive CapStyle where
  | round
  | flat
  | square
deriving DecidableEq, Repr

/-- Join styles in the order the engine's buffer JOIN_STYLE parameter
enumerates them (QGIS `native:buffer`: 0 Round, 1 Miter, 2 Bevel). -/
inductive JoinStyle where
  | round
  | miter
  | bevel
deriving DecidableEq, Repr

/-- Decode an END_CAP_STYLE code per the engine's option list. -/
def capStyleOfCode (c : Nat) : CapStyle :=
  if c = 0 then CapStyle.round else if c = 1 then CapStyle.flat else CapStyle.square

/-- Decode a JOIN_STYLE code per the engine's option list. -/
def joinStyleOfCode (c : Nat) : JoinStyle :=
  if c = 0 then JoinStyle.round else if c = 1 then JoinStyle.miter else JoinStyle.bevel

/- ------------------------------------------------------------------ -/
/- Concrete scenario used for counterexamples and witnesses.           -/
/- ------------------------------------------------------------------ -/

/-- A small concrete engine: geometry operations are injective shifts on the
opaque ids, the grid has two cells, nothing intersects the corridor, every
sampling call succeeds and yields 7. -/
def engA : Engine :=
  { bufferOut := fun gs => gs.map (fun g => g + 100)
    boundaryLines := fun gs => gs.map (fun g => g + 200)
    pointsAlongGeoms := fun gs => gs.map (fun g => g + 300)
    gridCells := fun _ => [1, 2]
    clipGeoms := fun gs _ => gs
    centroidOf := fun g => g + 400
    intersects := fun _ _ => false
    sampleOk := fun _ _ => true
    sampleVal := fun _ _ _ => 7
    pyRepr := fun s => s }

/-- Same engine, except that sampling band 2 of the raster named `dtm`
fails. -/
def engB : Engine :=
  { engA with sampleOk := fun r b => !(r == "dtm" && b == 2) }

/-- Same engine, except that the first grid centroid intersects the
corridor. -/
def engC : Engine :=
  { engA with intersects := fun g _ => g == 401 }

/-- Same engine, except that sampling band 1 of the raster named `dsm`
fails. -/
def engD : Engine :=
  { engA with sampleOk := fun r b => !(r == "dsm" && b == 1) }

/-- Concrete centerline layer (CRS 1). -/
def clA : VectorLayer := { name := "center", crsId := 1, extentId := 0, feats := [10] }

/-- Concrete user-selected buffer layer (CRS 2, distinct from the
centerline's). -/
def blA : VectorLayer := { name := "corridor", crsId := 2, extentId := 5, feats := [20] }

/-- Concrete DTM raster with two bands. -/
def dtmA : RasterLayer := { name := "dtm", crsId := 1, bandCount := 2 }

/-- Concrete DSM raster with one band. -/
def dsmA : RasterLayer := { name := "dsm", crsId := 1, bandCount := 1 }

/-- Concrete DTM raster reporting zero bands. -/
def dtmZero : RasterLayer := { name := "dtmz", crsId := 1, bandCount := 0 }

/-- Concrete DSM raster reporting zero bands. -/
def dsmZero : RasterLayer := { name := "dsmz", crsId := 1, bandCount := 0 }

/-- Concrete workspace: two vector and two raster layers. -/
def wsA : List Dataset :=
  [Dataset.vector clA, Dataset.vector blA, Dataset.raster dtmA, Dataset.raster dsmA]

/-- Concrete workspace with the zero-band rasters. -/
def wsZero : List Dataset :=
  [Dataset.vector clA, Dataset.vector blA, Dataset.raster dtmZero, Dataset.raster dsmZero]

/-- Concrete workspace with one vector and three raster layers. -/
def wsFew : List Dataset :=
  [Dataset.vector clA, Dataset.raster dtmA, Dataset.raster dsmA,
   Dataset.raster { name := "extra", crsId := 1, bandCount := 1 }]

/-- Operator that answers every prompt with the matching layer name. -/
def opA : String → Option String := fun t =>
  if t = centerlineTitle then some "center"
  else if t = bufferTitle then some "corridor"
  else if t = dtmTitle then some "dtm"
  else some "dsm"

/-- Operator that answers like `opA` for the zero-band workspace. -/
def opZero : String → Option String := fun t =>
  if t = centerlineTitle then some "center"
  else if t = bufferTitle then some "corridor"
  else if t = dtmTitle then some "dtmz"
  else some "dsmz"

/-- Operator that cancels the buffer-layer prompt. -/
def opCancelBuffer : String → Option String := fun t =>
  if t = bufferTitle then none else opA t

/-- Operator that cancels the centerline prompt (the first one). -/
def opCancelCenter : String → Option String := fun t =>
  if t = centerlineTitle then none else opA t

/- ------------------------------------------------------------------ -/
/- Helper lemmas.                                                      -/
/- ------------------------------------------------------------------ -/

/-- Zipping a list with its own image under `g` pairs each element with its
image. -/
theorem zip_self_map {α β : Type} (g : α → β) (l : List α) :
    l.zip (l.map g) = l.map (fun a => (a, g a)) := by
  induction l with
  | nil => rfl
  | cons x xs ih => simp [ih]

/-- Unfolding equation of `bandList` at a successor. -/
theorem bandList_succ (n : Nat) : bandList (n + 1) = bandList n ++ [n + 1] := rfl

/-- `bandList n` contains exactly the bands `1..n`. -/
theorem mem_bandList {x n : Nat} : x ∈ bandList n ↔ 1 ≤ x ∧ x ≤ n := by
  induction n with
  | zero =>
    simp only [bandList, List.not_mem_nil, false_iff]
    omega
  | succ m ih =>
    rw [bandList_succ]
    simp only [List.mem_append, List.mem_singleton, ih]
    omega

/-- A band `k` with `1 ≤ k ≤ n` splits `bandList n` right after
`bandList (k - 1)`. -/
theorem bandList_split {k n : Nat} (hk : 1 ≤ k) (hkn : k ≤ n) :
    ∃ l, bandList n = bandList (k - 1) ++ k :: l := by
  induction n with
  | zero => omega
  | succ m ih =>
    by_cases hkm : k ≤ m
    · obtain ⟨l, hl⟩ := ih hkm
      exact ⟨l ++ [m + 1], by simp [bandList_succ, hl]⟩
    · have hk1 : k = m + 1 := by omega
      subst hk1
      exact ⟨[], by simp [bandList_succ]⟩

/-- When every sampling call in the band list succeeds, the loop reports no
failure, registers one layer per band, and issues one sampling call per
band. -/
theorem bandLoop_all_ok (eng : Engine) (raster : RasterLayer) (input : PFS)
    (fieldOf regNameOf : Nat → String) (l : List Nat)
    (hok : ∀ x ∈ l, eng.sampleOk raster.name x = true) :
    (bandLoop eng raster input fieldOf regNameOf l).failedBand = none ∧
    (bandLoop eng raster input fieldOf regNameOf l).registered = l.map regNameOf ∧
    (bandLoop eng raster input fieldOf regNameOf l).trace =
      l.map (fun b => Call.sampleRaster raster.name b (fieldOf b) 3) := by
  induction l with
  | nil => simp [bandLoop]
  | cons b rest ih =>
    have hb : eng.sampleOk raster.name b = true := hok b (List.mem_cons_self b rest)
    have ihr := ih (fun x hx => hok x (List.mem_cons_of_mem b hx))
    simp [bandLoop, hb, ihr.1, ihr.2.1, ihr.2.2]

/-- When every sampling call succeeds, the loop's output variable ends up
holding the output of the last band. -/
theorem bandLoop_concat_last (eng : Engine) (raster : RasterLayer) (input : PFS)
    (fieldOf regNameOf : Nat → String) (l : List Nat) (b : Nat)
    (hok : ∀ x ∈ l ++ [b], eng.sampleOk raster.name x = true) :
    (bandLoop eng raster input fieldOf regNameOf (l ++ [b])).lastOutput =
      some (addRasterValues eng raster b (fieldOf b) input) := by
  induction l with
  | nil =>
    have hb : eng.sampleOk raster.name b = true := hok b (by simp)
    simp [bandLoop, hb]
  | cons x xs ih =>
    have hx : eng.sampleOk raster.name x = true := hok x (List.mem_cons_self x (xs ++ [b]))
    have ihr := ih (fun y hy => hok y (List.mem_cons_of_mem x hy))
    simp [bandLoop, hx, ihr]

/-- When the sampling calls succeed up to the first failing band `b`, the
loop aborts at `b`, keeping exactly the layers registered before `b` and
having issued the calls up to and including the failing one. -/
theorem bandLoop_fail (eng : Engine) (raster : RasterLayer) (input : PFS)
    (fieldOf regNameOf : Nat → String) (lok ltl : List Nat) (b : Nat)
    (hok : ∀ x ∈ lok, eng.sampleOk raster.name x = true)
    (hb : eng.sampleOk raster.name b = false) :
    (bandLoop eng raster input fieldOf regNameOf (lok ++ b :: ltl)).failedBand = some b ∧
    (bandLoop eng raster input fieldOf regNameOf (lok ++ b :: ltl)).registered =
      lok.map regNameOf ∧
    (bandLoop eng raster input fieldOf regNameOf (lok ++ b :: ltl)).trace =
      lok.map (fun x => Call.sampleRaster raster.name x (fieldOf x) 3) ++
        [Call.sampleRaster raster.name b (fieldOf b) 3] := by
  induction lok with
  | nil => simp [bandLoop, hb]
  | cons x xs ih =>
    have hx : eng.sampleOk raster.name x = true := hok x (List.mem_cons_self x xs)
    have ihr := ih (fun y hy => hok y (List.mem_cons_of_mem x hy))
    simp [bandLoop, hx, ihr.1, ihr.2.1, ihr.2.2]

/-- Every call issued by an extraction loop is a raster-sampling call. -/
theorem bandLoop_trace_sample (eng : Engine) (raster : RasterLayer) (input : PFS)
    (fieldOf regNameOf : Nat → String) (l : List Nat) :
    ∀ c ∈ (bandLoop eng raster input fieldOf regNameOf l).trace,
      ∃ r bd f m, c = Call.sampleRaster r bd f m := by
  induction l with
  | nil => simp [bandLoop]
  | cons b rest ih =>
    intro c hc
    cases hb : eng.sampleOk raster.name b with
    | true =>
      simp only [bandLoop, hb, if_true, List.mem_cons] at hc
      rcases hc with hc | hc
      · exact ⟨_, _, _, _, hc⟩
      · exact ih c hc
    | false =>
      simp only [bandLoop, hb, Bool.false_eq_true, if_false, List.mem_singleton] at hc
      exact ⟨_, _, _, _, hc⟩

/-- A trace consisting only of sampling calls contains no merge call. -/
theorem mergeCrsList_sample_nil (l : List Call)
    (h : ∀ c ∈ l, ∃ r bd f m, c = Call.sampleRaster r bd f m) :
    mergeCrsList l = [] := by
  induction l with
  | nil => rfl
  | cons c rest ih =>
    obtain ⟨r, bd, f, m, rfl⟩ := h c (List.mem_cons_self c rest)
    simpa [mergeCrsList] using ih (fun x hx => h x (List.mem_cons_of_mem _ hx))

/-- The first grid-creation call in the pipeline trace uses the buffer
layer's CRS, regardless of the extraction calls that follow. -/
theorem gridCrsOf_fixed (eng : Engine) (cl bl : VectorLayer) (l : List Call) :
    gridCrsOf (coreFixedTrace eng cl bl ++ l) = some bl.crsId := by
  simp [coreFixedTrace, gridCrsOf]

/-- The merge calls in the pipeline trace are the line-network merge and the
final point merge, in that order. -/
theorem mergeCrsList_fixed (eng : Engine) (cl bl : VectorLayer) (l : List Call) :
    mergeCrsList (coreFixedTrace eng cl bl ++ l) =
      cl.crsId :: (pointsAlongOutput eng cl).crsId :: mergeCrsList l := by
  simp [coreFixedTrace, mergeCrsList]

/-- The first buffer call in the pipeline trace carries the literal
parameter tuple of the source. -/
theorem bufferCallOf_fixed (eng : Engine) (cl bl : VectorLayer) (l : List Call) :
    bufferCallOf (coreFixedTrace eng cl bl ++ l) = some (2, 5, 0, 0, 2, false) := by
  simp [coreFixedTrace, bufferCallOf]

/-- The geometry stage issues no sampling call. -/
theorem sampleCallCount_fixed (eng : Engine) (cl bl : VectorLayer) (l : List Call) :
    sampleCallCount (coreFixedTrace eng cl bl ++ l) = sampleCallCount l := by
  simp [coreFixedTrace, sampleCallCount]

/-- Outcome of the processing stage when both extraction loops run to
completion on at least one DSM band. -/
theorem processCore_eq_of_success (eng : Engine) (cl bl : VectorLayer)
    (dtm dsm : RasterLayer) (prompts : List String) (inp : PFS)
    (hfb : (dtmLoopResult eng cl bl dtm).failedBand = none)
    (hnz : dsm.bandCount ≠ 0)
    (hlast : (dtmLoopResult eng cl bl dtm).lastOutput = some inp)
    (hfb2 : (dsmLoopResult eng dsm inp).failedBand = none) :
    processCore eng cl bl dtm dsm prompts =
      { promptsShown := prompts
        trace := coreFixedTrace eng cl bl ++
          ((dtmLoopResult eng cl bl dtm).trace ++ (dsmLoopResult eng dsm inp).trace)
        registered := (dtmLoopResult eng cl bl dtm).registered ++
          (dsmLoopResult eng dsm inp).registered
        error := none
        terminalOutput := (dsmLoopResult eng dsm inp).lastOutput } := by
  unfold processCore
  split
  next b heq => rw [hfb] at heq; simp at heq
  next heq =>
    rw [if_neg hnz]
    split
    next heq2 => rw [hlast] at heq2; simp at heq2
    next inp2 heq2 =>
      rw [hlast] at heq2
      injection heq2 with h
      subst h
      split
      next b heq3 => rw [hfb2] at heq3; simp at heq3
      next heq3 => rfl

/-- Outcome of the processing stage when a DTM band's sampling call fails:
the run aborts there, keeping the layers registered so far. -/
theorem processCore_eq_of_dtmfail (eng : Engine) (cl bl : VectorLayer)
    (dtm dsm : RasterLayer) (prompts : List String) (b : Nat)
    (hfb : (dtmLoopResult eng cl bl dtm).failedBand = some b) :
    processCore eng cl bl dtm dsm prompts =
      { promptsShown := prompts
        trace := coreFixedTrace eng cl bl ++ (dtmLoopResult eng cl bl dtm).trace
        registered := (dtmLoopResult eng cl bl dtm).registered
        error := some (RunError.rasterSampling dtm.name b)
        terminalOutput := none } := by
  unfold processCore
  split
  next b2 heq =>
    rw [hfb] at heq
    injection heq with h
    subst h
    rfl
  next heq => rw [hfb] at heq; simp at heq

/-- Outcome of the processing stage when the DTM loop ran no iteration and
the DSM loop has at least one: the first DSM iteration reads the unassigned
output variable and the run aborts with a `NameError`. -/
theorem processCore_eq_of_nameError (eng : Engine) (cl bl : VectorLayer)
    (dtm dsm : RasterLayer) (prompts : List String)
    (hfb : (dtmLoopResult eng cl bl dtm).failedBand = none)
    (hnz : dsm.bandCount ≠ 0)
    (hlast : (dtmLoopResult eng cl bl dtm).lastOutput = none) :
    processCore eng cl bl dtm dsm prompts =
      { promptsShown := prompts
        trace := coreFixedTrace eng cl bl ++ (dtmLoopResult eng cl bl dtm).trace
        registered := (dtmLoopResult eng cl bl dtm).registered
        error := some RunError.nameErrorRasterValues
        terminalOutput := none } := by
  unfold processCore
  split
  next b heq => rw [hfb] at heq; simp at heq
  next heq =>
    rw [if_neg hnz]
    split
    next heq2 => rfl
    next inp heq2 => rw [hlast] at heq2; simp at heq2

/-- Outcome of the processing stage when the DTM loop succeeds (with at
least one band) and a DSM band's sampling call fails: the run aborts there,
keeping all the DTM layers and the DSM layers registered before the failing
band. -/
theorem processCore_eq_of_dsmfail (eng : Engine) (cl bl : VectorLayer)
    (dtm dsm : RasterLayer) (prompts : List String) (inp : PFS) (b : Nat)
    (hfb : (dtmLoopResult eng cl bl dtm).failedBand = none)
    (hnz : dsm.bandCount ≠ 0)
    (hlast : (dtmLoopResult eng cl bl dtm).lastOutput = some inp)
    (hfb2 : (dsmLoopResult eng dsm inp).failedBand = some b) :
    processCore eng cl bl dtm dsm prompts =
      { promptsShown := prompts
        trace := coreFixedTrace eng cl bl ++
          ((dtmLoopResult eng cl bl dtm).trace ++ (dsmLoopResult eng dsm inp).trace)
        registered := (dtmLoopResult eng cl bl dtm).registered ++
          (dsmLoopResult eng dsm inp).registered
        error := some (RunError.rasterSampling dsm.name b)
        terminalOutput := none } := by
  unfold processCore
  split
  next b2 heq => rw [hfb] at heq; simp at heq
  next heq =>
    rw [if_neg hnz]
    split
    next heq2 => rw [hlast] at heq2; simp at heq2
    next inp2 heq2 =>
      rw [hlast] at heq2
      injection heq2 with h
      subst h
      split
      next b2 heq3 =>
        rw [hfb2] at heq3
        injection heq3 with h2
        subst h2
        rfl
      next heq3 => rw [hfb2] at heq3; simp at heq3

/-- The pipeline trace is the fixed geometry-stage calls followed only by
raster-sampling calls. -/
theorem processCore_trace_shape (eng : Engine) (cl bl : VectorLayer)
    (dtm dsm : RasterLayer) (prompts : List String) :
    ∃ l, (processCore eng cl bl dtm dsm prompts).trace = coreFixedTrace eng cl bl ++ l ∧
      ∀ c ∈ l, ∃ r bd f m, c = Call.sampleRaster r bd f m := by
  unfold processCore
  split
  next b heq =>
    exact ⟨_, rfl, bandLoop_trace_sample eng dtm (mergedOutput eng cl bl)
      dtmFieldName dtmFieldName (bandList dtm.bandCount)⟩
  next heq =>
    split
    · exact ⟨_, rfl, bandLoop_trace_sample eng dtm (mergedOutput eng cl bl)
        dtmFieldName dtmFieldName (bandList dtm.bandCount)⟩
    · split
      next heq2 =>
        exact ⟨_, rfl, bandLoop_trace_sample eng dtm (mergedOutput eng cl bl)
          dtmFieldName dtmFieldName (bandList dtm.bandCount)⟩
      next inp heq2 =>
        split
        next b heq3 =>
          refine ⟨_, rfl, ?_⟩
          intro c hc
          rcases List.mem_append.mp hc with h | h
          · exact bandLoop_trace_sample eng dtm (mergedOutput eng cl bl)
              dtmFieldName dtmFieldName (bandList dtm.bandCount) c h
          · exact bandLoop_trace_sample eng dsm inp dsmFieldName
              (fun _ => eng.pyRepr dsm.name ++ "+_DSM") (bandList dsm.bandCount) c h
        next heq3 =>
          refine ⟨_, rfl, ?_⟩
          intro c hc
          rcases List.mem_append.mp hc with h | h
          · exact bandLoop_trace_sample eng dtm (mergedOutput eng cl bl)
              dtmFieldName dtmFieldName (bandList dtm.bandCount) c h
          · exact bandLoop_trace_sample eng dsm inp dsmFieldName
              (fun _ => eng.pyRepr dsm.name ++ "+_DSM") (bandList dsm.bandCount) c h

/-- Outcome of `run` when a selection was cancelled: the four prompts were
shown, and the run aborts with no processing call, no registration and no
output. -/
theorem run_cancelled_eq (eng : Engine) (op : String → Option String) (ws : List Dataset)
    (hv : 2 ≤ (vectorsOf ws).length) (hr : 2 ≤ (rastersOf ws).length)
    (hc : (selectLayer op VectorLayer.name (vectorsOf ws) centerlineTitle).2 = none ∨
          (selectLayer op VectorLayer.name (vectorsOf ws) bufferTitle).2 = none ∨
          (selectLayer op RasterLayer.name (rastersOf ws) dtmTitle).2 = none ∨
          (selectLayer op RasterLayer.name (rastersOf ws) dsmTitle).2 = none) :
    run eng op ws =
      { promptsShown := [centerlineTitle, bufferTitle, dtmTitle, dsmTitle]
        trace := [], registered := []
        error := some RunError.selectionCancelled, terminalOutput := none } := by
  unfold run
  rw [if_neg (by push_neg; omega)]
  split
  · exfalso
    rcases hc with h | h | h | h <;> simp_all
  all_goals rfl

/-- Every point of the clipped-grid centroid layer carries no raster
attribute. -/
theorem centroidsOutput_attrs_nil (eng : Engine) (bl : VectorLayer) :
    ∀ p ∈ (centroidsOutput eng bl).pts, p.attrs = [] := by
  intro p hp
  simp only [centroidsOutput, List.mem_map] at hp
  obtain ⟨g, _, rfl⟩ := hp
  rfl

/-- The surviving centroids are a subset of the centroid layer. -/
theorem remaining_subset_centroids (eng : Engine) (cl bl : VectorLayer) (p : Pt)
    (hp : p ∈ (remainingCentroids eng cl bl).pts) :
    p ∈ (centroidsOutput eng bl).pts := by
  simp only [remainingCentroids, invertedMask, selectionMask, List.map_map] at hp
  rw [zip_self_map] at hp
  simp only [List.mem_map, List.mem_filter] at hp
  obtain ⟨a, ⟨ha, _⟩, hfst⟩ := hp
  obtain ⟨q, hq, rfl⟩ := ha
  have hqp : q = p := hfst
  exact hqp ▸ hq

/-- Every point entering the raster-extraction stage carries no raster
attribute yet. -/
theorem mergedOutput_attrs_nil (eng : Engine) (cl bl : VectorLayer) :
    ∀ p ∈ (mergedOutput eng cl bl).pts, p.attrs = [] := by
  intro p hp
  simp only [mergedOutput, mergePointLayers, List.flatten, List.append_nil,
    List.mem_append] at hp
  rcases hp with h | h
  · simp only [pointsAlongOutput, List.mem_map] at h
    obtain ⟨g, _, rfl⟩ := h
    rfl
  · exact centroidsOutput_attrs_nil eng bl p (remaining_subset_centroids eng cl bl p h)

/- ------------------------------------------------------------------ -/
/- Claims.                                                             -/
/- ------------------------------------------------------------------ -/

/-- C1 (counterexample): the claim says the extractor chains each band's
extraction from the previous band's enriched output so that every terminal
point carries `B1 + B2` raster attributes.  On a run with a 2-band terrain
raster and a 1-band surface raster (`B1 + B2 = 3`), every point of the
terminal output carries only the two attributes `DTM_Band_2` and
`DSM_Band_1`: each DTM band restarts from the bare merged point set and each
DSM band restarts from the last DTM band's output, so earlier bands'
attributes are dropped. -/
theorem C1_counterexample :
    dtmA.bandCount + dsmA.bandCount = 3 ∧
    ((run engA opA wsA).terminalOutput.map fun s => s.pts.map fun p => p.attrs.map Prod.fst) =
      some [[dtmFieldName 2, dsmFieldName 1], [dtmFieldName 2, dsmFieldName 1],
            [dtmFieldName 2, dsmFieldName 1], [dtmFieldName 2, dsmFieldName 1]] :=
  ⟨rfl, rfl⟩

/-- C1 (amended): in multi-band mode the extractor iterates bands `1..B` of
each raster and attaches the attribute `<Role>_Band_<index>` per band, but
every terrain band's extraction starts from the bare merged point set and
every surface band's extraction starts from the last terrain band's output;
consequently the terminal output equals the last surface band applied to the
last terrain band applied to the merged points, and every terminal point
carries exactly the two raster attributes `DTM_Band_<B1>` and
`DSM_Band_<B2>`. -/
theorem C1_theorem (eng : Engine) (cl bl : VectorLayer) (dtm dsm : RasterLayer)
    (prompts : List String)
    (h1 : 1 ≤ dtm.bandCount) (h2 : 1 ≤ dsm.bandCount)
    (hok1 : ∀ b, eng.sampleOk dtm.name b = true)
    (hok2 : ∀ b, eng.sampleOk dsm.name b = true) :
    (processCore eng cl bl dtm dsm prompts).terminalOutput =
      some (addRasterValues eng dsm dsm.bandCount (dsmFieldName dsm.bandCount)
        (addRasterValues eng dtm dtm.bandCount (dtmFieldName dtm.bandCount)
          (mergedOutput eng cl bl))) ∧
    (processCore eng cl bl dtm dsm prompts).registered =
      (bandList dtm.bandCount).map dtmFieldName ++
        (bandList dsm.bandCount).map (fun _ => eng.pyRepr dsm.name ++ "+_DSM") ∧
    (∀ s, (processCore eng cl bl dtm dsm prompts).terminalOutput = some s →
      ∀ p ∈ s.pts, p.attrs.map Prod.fst =
        [dtmFieldName dtm.bandCount, dsmFieldName dsm.bandCount]) := by
  obtain ⟨m, hm⟩ : ∃ m, dtm.bandCount = m + 1 := ⟨dtm.bandCount - 1, by omega⟩
  obtain ⟨n, hn⟩ : ∃ n, dsm.bandCount = n + 1 := ⟨dsm.bandCount - 1, by omega⟩
  have hdt := bandLoop_all_ok eng dtm (mergedOutput eng cl bl) dtmFieldName dtmFieldName
    (bandList dtm.bandCount) (fun x _ => hok1 x)
  have hfb : (dtmLoopResult eng cl bl dtm).failedBand = none := hdt.1
  have hlast : (dtmLoopResult eng cl bl dtm).lastOutput =
      some (addRasterValues eng dtm dtm.bandCount (dtmFieldName dtm.bandCount)
        (mergedOutput eng cl bl)) := by
    show (bandLoop eng dtm (mergedOutput eng cl bl) dtmFieldName dtmFieldName
      (bandList dtm.bandCount)).lastOutput = _
    rw [hm, bandList_succ]
    exact bandLoop_concat_last eng dtm (mergedOutput eng cl bl) dtmFieldName dtmFieldName
      (bandList m) (m + 1) (fun x _ => hok1 x)
  have hds := bandLoop_all_ok eng dsm
    (addRasterValues eng dtm dtm.bandCount (dtmFieldName dtm.bandCount) (mergedOutput eng cl bl))
    dsmFieldName (fun _ => eng.pyRepr dsm.name ++ "+_DSM")
    (bandList dsm.bandCount) (fun x _ => hok2 x)
  have hfb2 : (dsmLoopResult eng dsm (addRasterValues eng dtm dtm.bandCount
      (dtmFieldName dtm.bandCount) (mergedOutput eng cl bl))).failedBand = none := hds.1
  have hreg1 : (dtmLoopResult eng cl bl dtm).registered =
      (bandList dtm.bandCount).map dtmFieldName := hdt.2.1
  have hreg2 : (dsmLoopResult eng dsm (addRasterValues eng dtm dtm.bandCount
      (dtmFieldName dtm.bandCount) (mergedOutput eng cl bl))).registered =
      (bandList dsm.bandCount).map (fun _ => eng.pyRepr dsm.name ++ "+_DSM") := hds.2.1
  have hlast2 : (dsmLoopResult eng dsm (addRasterValues eng dtm dtm.bandCount
      (dtmFieldName dtm.bandCount) (mergedOutput eng cl bl))).lastOutput =
      some (addRasterValues eng dsm dsm.bandCount (dsmFieldName dsm.bandCount)
        (addRasterValues eng dtm dtm.bandCount (dtmFieldName dtm.bandCount)
          (mergedOutput eng cl bl))) := by
    show (bandLoop eng dsm _ dsmFieldName _ (bandList dsm.bandCount)).lastOutput = _
    rw [hn, bandList_succ]
    exact bandLoop_concat_last eng dsm _ dsmFieldName _ (bandList n) (n + 1)
      (fun x _ => hok2 x)
  rw [processCore_eq_of_success eng cl bl dtm dsm prompts _ hfb (by omega) hlast hfb2]
  refine ⟨hlast2, ?_, ?_⟩
  · show (dtmLoopResult eng cl bl dtm).registered ++ _ = _
    rw [hreg1, hreg2]
  · intro s hs p hp
    have hs' : (dsmLoopResult eng dsm (addRasterValues eng dtm dtm.bandCount
        (dtmFieldName dtm.bandCount) (mergedOutput eng cl bl))).lastOutput = some s := hs
    rw [hlast2] at hs'
    injection hs' with hs'
    subst hs'
    simp only [addRasterValues, List.mem_map] at hp
    obtain ⟨q1, ⟨q0, hq0, rfl⟩, rfl⟩ := hp
    simp [mergedOutput_attrs_nil eng cl bl q0 hq0]

/-- C1 (witness): the amended statement instantiated on the concrete
scenario with a 2-band DTM and a 1-band DSM. -/
theorem C1_witness :
    (1 ≤ dtmA.bandCount ∧ 1 ≤ dsmA.bandCount) ∧
    (processCore engA clA blA dtmA dsmA []).terminalOutput =
      some (addRasterValues engA dsmA dsmA.bandCount (dsmFieldName dsmA.bandCount)
        (addRasterValues engA dtmA dtmA.bandCount (dtmFieldName dtmA.bandCount)
          (mergedOutput engA clA blA))) :=
  ⟨⟨by decide, by decide⟩,
    (C1_theorem engA clA blA dtmA dsmA [] (by decide) (by decide)
      (fun _ => rfl) (fun _ => rfl)).1⟩

/-- C2 (counterexample): the claim says every spatial operation uses the
centerline's CRS as the canonical CRS; on a run whose centerline has CRS 1
and whose user-selected buffer layer has CRS 2, the grid-creation call is
issued with CRS 2, not a CRS derived from the centerline. -/
theorem C2_counterexample :
    clA.crsId = 1 ∧ blA.crsId = 2 ∧
    gridCrsOf (run engA opA wsA).trace = some 2 ∧ (2 : Nat) ≠ 1 :=
  ⟨rfl, rfl, rfl, by decide⟩

/-- C2 (amended): the line-network merge and the final point merge use the
centerline's CRS (the final merge takes the line-sampler output's CRS, which
equals the centerline's), but the grid creation uses the user-selected
buffer layer's CRS, which need not be derived from the centerline. -/
theorem C2_theorem (eng : Engine) (cl bl : VectorLayer) (dtm dsm : RasterLayer)
    (prompts : List String) :
    gridCrsOf (processCore eng cl bl dtm dsm prompts).trace = some bl.crsId ∧
    mergeCrsList (processCore eng cl bl dtm dsm prompts).trace = [cl.crsId, cl.crsId] ∧
    (pointsAlongOutput eng cl).crsId = cl.crsId := by
  obtain ⟨l, hl, hs⟩ := processCore_trace_shape eng cl bl dtm dsm prompts
  refine ⟨?_, ?_, rfl⟩
  · rw [hl]
    exact gridCrsOf_fixed eng cl bl l
  · rw [hl, mergeCrsList_fixed eng cl bl l, mergeCrsList_sample_nil l hs]
    rfl

/-- C3 (counterexample): the claim says the buffer uses flat end caps and
mitered joins; the buffer call's parameter tuple carries end-cap style code 0
and join style code 0, which in the engine's enumeration are the Round
styles, not Flat and not Miter. -/
theorem C3_counterexample :
    bufferCallOf (run engA opA wsA).trace = some (2, 5, 0, 0, 2, false) ∧
    capStyleOfCode 0 ≠ CapStyle.flat ∧ joinStyleOfCode 0 ≠ JoinStyle.miter :=
  ⟨rfl, by decide, by decide⟩

/-- C3 (amended): the Corridor Builder buffers the centerline with distance
2, segment count 5, end-cap style code 0 and join style code 0 (the engine's
Round cap and Round join options), miter limit 2, and no dissolve. -/
theorem C3_theorem (eng : Engine) (cl bl : VectorLayer) (dtm dsm : RasterLayer)
    (prompts : List String) :
    bufferCallOf (processCore eng cl bl dtm dsm prompts).trace =
      some (2, 5, 0, 0, 2, false) ∧
    capStyleOfCode 0 = CapStyle.round ∧ joinStyleOfCode 0 = JoinStyle.round := by
  obtain ⟨l, hl, _⟩ := processCore_trace_shape eng cl bl dtm dsm prompts
  refine ⟨?_, rfl, rfl⟩
  rw [hl]
  exact bufferCallOf_fixed eng cl bl l

/-- C4: every point surviving the deduplication step (select by location
with the intersects predicate against the unclipped step-1 buffer output,
selection inverted, selected features saved) does not intersect the corridor
polygon. -/
theorem C4_theorem (eng : Engine) (cl bl : VectorLayer) (p : Pt)
    (hp : p ∈ (remainingCentroids eng cl bl).pts) :
    eng.intersects p.geom (bufferOutput eng cl).feats = false := by
  simp only [remainingCentroids, invertedMask, selectionMask, List.map_map] at hp
  rw [zip_self_map] at hp
  simp only [List.mem_map, List.mem_filter] at hp
  obtain ⟨a, ⟨ha, hsel⟩, hfst⟩ := hp
  obtain ⟨q, hq, rfl⟩ := ha
  have hqp : q = p := hfst
  subst hqp
  simpa using hsel

/-- C4 (witness): in the concrete scenario where the centroid with geometry
401 intersects the corridor, the surviving centroid 402 does not intersect
it. -/
theorem C4_witness :
    ({ geom := 402, attrs := [] } : Pt) ∈ (remainingCentroids engC clA blA).pts ∧
    engC.intersects 402 (bufferOutput engC clA).feats = false :=
  ⟨by decide, C4_theorem engC clA blA { geom := 402, attrs := [] } (by decide)⟩

/-- C5: the Point Merger output is the concatenation of the line-sampler
points and the surviving centroids (no drops, no deduplication of coincident
points), so its count is the sum of the two input counts, and its CRS is the
line-sampler output's. -/
theorem C5_theorem (eng : Engine) (cl bl : VectorLayer) :
    (mergedOutput eng cl bl).pts =
      (pointsAlongOutput eng cl).pts ++ (remainingCentroids eng cl bl).pts ∧
    (mergedOutput eng cl bl).pts.length =
      (pointsAlongOutput eng cl).pts.length + (remainingCentroids eng cl bl).pts.length ∧
    (mergedOutput eng cl bl).crsId = (pointsAlongOutput eng cl).crsId := by
  refine ⟨?_, ?_, rfl⟩
  · simp [mergedOutput, mergePointLayers]
  · simp [mergedOutput, mergePointLayers]

/-- C6: with fewer than 2 vector or fewer than 2 raster datasets in the
workspace, the run aborts with the insufficient-inputs error before any
selection prompt is shown and performs no processing. -/
theorem C6_theorem (eng : Engine) (op : String → Option String) (ws : List Dataset)
    (h : (vectorsOf ws).length < 2 ∨ (rastersOf ws).length < 2) :
    run eng op ws =
      { promptsShown := [], trace := [], registered := []
        error := some RunError.insufficientInputs, terminalOutput := none } := by
  unfold run
  rw [if_pos h]

/-- C6 (witness): the spec's scenario of one vector and three raster
datasets aborts before any prompt with no processing. -/
theorem C6_witness :
    ((vectorsOf wsFew).length < 2 ∨ (rastersOf wsFew).length < 2) ∧
    run engA opA wsFew =
      { promptsShown := [], trace := [], registered := []
        error := some RunError.insufficientInputs, terminalOutput := none } :=
  ⟨by decide, C6_theorem engA opA wsFew (by decide)⟩

/-- C7: if the operator cancels any of the four layer selections, the run
aborts with the cancellation error, zero registered datasets, zero raster
samples, and no pipeline stage executed. -/
theorem C7_theorem (eng : Engine) (op : String → Option String) (ws : List Dataset)
    (hv : 2 ≤ (vectorsOf ws).length) (hr : 2 ≤ (rastersOf ws).length)
    (hc : (selectLayer op VectorLayer.name (vectorsOf ws) centerlineTitle).2 = none ∨
          (selectLayer op VectorLayer.name (vectorsOf ws) bufferTitle).2 = none ∨
          (selectLayer op RasterLayer.name (rastersOf ws) dtmTitle).2 = none ∨
          (selectLayer op RasterLayer.name (rastersOf ws) dsmTitle).2 = none) :
    (run eng op ws).registered = [] ∧
    sampleCallCount (run eng op ws).trace = 0 ∧
    (run eng op ws).trace = [] ∧
    (run eng op ws).error = some RunError.selectionCancelled := by
  rw [run_cancelled_eq eng op ws hv hr hc]
  exact ⟨rfl, rfl, rfl, rfl⟩

/-- C7 (witness): the spec's scenario where the operator cancels the
buffer-layer prompt. -/
theorem C7_witness :
    (2 ≤ (vectorsOf wsA).length ∧ 2 ≤ (rastersOf wsA).length ∧
      (selectLayer opCancelBuffer VectorLayer.name (vectorsOf wsA) bufferTitle).2 = none) ∧
    ((run engA opCancelBuffer wsA).registered = [] ∧
     sampleCallCount (run engA opCancelBuffer wsA).trace = 0 ∧
     (run engA opCancelBuffer wsA).trace = [] ∧
     (run engA opCancelBuffer wsA).error = some RunError.selectionCancelled) :=
  ⟨⟨by decide, by decide, by decide⟩,
    C7_theorem engA opCancelBuffer wsA (by decide) (by decide)
      (Or.inr (Or.inl (by decide)))⟩

/-- C8 (counterexample): the claim says no partial datasets remain
registered when a raster-extraction step fails.  On a run where band 1 of
the 2-band DTM succeeds and band 2 fails, the run aborts with the sampling
error but the band-1 output layer remains registered. -/
theorem C8_counterexample :
    (run engB opA wsA).error = some (RunError.rasterSampling "dtm" 2) ∧
    (run engB opA wsA).registered = [dtmFieldName 1] ∧
    [dtmFieldName 1] ≠ ([] : List String) :=
  ⟨rfl, rfl, by decide⟩

/-- C8 (amended): on the first failing sampling call the run aborts
immediately with no retries and produces no terminal output, but the output
layers registered by the earlier successful bands remain registered.  First
part: the failure is at terrain band `k` (all earlier terrain bands
succeeding), and the terrain layers of bands `1..k-1` stay registered.
Second part: the whole terrain loop succeeded and the failure is at surface
band `k` (all earlier surface bands succeeding), and all the terrain bands'
layers plus the earlier surface bands' layers stay registered. -/
theorem C8_theorem (eng : Engine) (cl bl : VectorLayer) (dtm dsm : RasterLayer)
    (prompts : List String) (k : Nat) (hk1 : 1 ≤ k) :
    (k ≤ dtm.bandCount →
      eng.sampleOk dtm.name k = false →
      (∀ b, 1 ≤ b → b < k → eng.sampleOk dtm.name b = true) →
      (processCore eng cl bl dtm dsm prompts).error =
        some (RunError.rasterSampling dtm.name k) ∧
      (processCore eng cl bl dtm dsm prompts).registered =
        (bandList (k - 1)).map dtmFieldName ∧
      (processCore eng cl bl dtm dsm prompts).terminalOutput = none) ∧
    (k ≤ dsm.bandCount →
      1 ≤ dtm.bandCount →
      (∀ b, eng.sampleOk dtm.name b = true) →
      eng.sampleOk dsm.name k = false →
      (∀ b, 1 ≤ b → b < k → eng.sampleOk dsm.name b = true) →
      (processCore eng cl bl dtm dsm prompts).error =
        some (RunError.rasterSampling dsm.name k) ∧
      (processCore eng cl bl dtm dsm prompts).registered =
        (bandList dtm.bandCount).map dtmFieldName ++
          (bandList (k - 1)).map (fun _ => eng.pyRepr dsm.name ++ "+_DSM") ∧
      (processCore eng cl bl dtm dsm prompts).terminalOutput = none) := by
  constructor
  · intro hk2 hfail hok
    obtain ⟨l, hl⟩ := bandList_split hk1 hk2
    have hfp := bandLoop_fail eng dtm (mergedOutput eng cl bl) dtmFieldName dtmFieldName
      (bandList (k - 1)) l k
      (fun x hx => by
        have hx1 := (mem_bandList.mp hx).1
        have hx2 := (mem_bandList.mp hx).2
        exact hok x hx1 (by omega))
      hfail
    have hfb : (dtmLoopResult eng cl bl dtm).failedBand = some k := by
      unfold dtmLoopResult
      rw [hl]
      exact hfp.1
    have hreg : (dtmLoopResult eng cl bl dtm).registered =
        (bandList (k - 1)).map dtmFieldName := by
      unfold dtmLoopResult
      rw [hl]
      exact hfp.2.1
    rw [processCore_eq_of_dtmfail eng cl bl dtm dsm prompts k hfb]
    exact ⟨rfl, hreg, rfl⟩
  · intro hk2 hd1 hokd hfail hok
    obtain ⟨m, hm⟩ : ∃ m, dtm.bandCount = m + 1 := ⟨dtm.bandCount - 1, by omega⟩
    have hdt := bandLoop_all_ok eng dtm (mergedOutput eng cl bl) dtmFieldName dtmFieldName
      (bandList dtm.bandCount) (fun x _ => hokd x)
    have hfb : (dtmLoopResult eng cl bl dtm).failedBand = none := hdt.1
    have hreg1 : (dtmLoopResult eng cl bl dtm).registered =
        (bandList dtm.bandCount).map dtmFieldName := hdt.2.1
    have hlast : (dtmLoopResult eng cl bl dtm).lastOutput =
        some (addRasterValues eng dtm dtm.bandCount (dtmFieldName dtm.bandCount)
          (mergedOutput eng cl bl)) := by
      show (bandLoop eng dtm (mergedOutput eng cl bl) dtmFieldName dtmFieldName
        (bandList dtm.bandCount)).lastOutput = _
      rw [hm, bandList_succ]
      exact bandLoop_concat_last eng dtm (mergedOutput eng cl bl) dtmFieldName dtmFieldName
        (bandList m) (m + 1) (fun x _ => hokd x)
    obtain ⟨l, hl⟩ := bandList_split hk1 hk2
    have hfp := bandLoop_fail eng dsm
      (addRasterValues eng dtm dtm.bandCount (dtmFieldName dtm.bandCount)
        (mergedOutput eng cl bl))
      dsmFieldName (fun _ => eng.pyRepr dsm.name ++ "+_DSM")
      (bandList (k - 1)) l k
      (fun x hx => by
        have hx1 := (mem_bandList.mp hx).1
        have hx2 := (mem_bandList.mp hx).2
        exact hok x hx1 (by omega))
      hfail
    have hfb2 : (dsmLoopResult eng dsm (addRasterValues eng dtm dtm.bandCount
        (dtmFieldName dtm.bandCount) (mergedOutput eng cl bl))).failedBand = some k := by
      unfold dsmLoopResult
      rw [hl]
      exact hfp.1
    have hreg2 : (dsmLoopResult eng dsm (addRasterValues eng dtm dtm.bandCount
        (dtmFieldName dtm.bandCount) (mergedOutput eng cl bl))).registered =
        (bandList (k - 1)).map (fun _ => eng.pyRepr dsm.name ++ "+_DSM") := by
      unfold dsmLoopResult
      rw [hl]
      exact hfp.2.1
    rw [processCore_eq_of_dsmfail eng cl bl dtm dsm prompts _ k hfb (by omega) hlast hfb2]
    refine ⟨rfl, ?_, rfl⟩
    show (dtmLoopResult eng cl bl dtm).registered ++ _ = _
    rw [hreg1, hreg2]

/-- C8 (witness): both parts of the amended statement instantiated: band 2
of the 2-band DTM failing keeps the band-1 layer registered, and the single
DSM band failing after both DTM bands succeeded keeps both DTM layers
registered. -/
theorem C8_witness :
    (1 ≤ 2 ∧ 2 ≤ dtmA.bandCount ∧ engB.sampleOk dtmA.name 2 = false ∧
      1 ≤ dsmA.bandCount ∧ engD.sampleOk dsmA.name 1 = false) ∧
    ((processCore engB clA blA dtmA dsmA []).error =
        some (RunError.rasterSampling dtmA.name 2) ∧
      (processCore engB clA blA dtmA dsmA []).registered =
        (bandList (2 - 1)).map dtmFieldName ∧
      (processCore engB clA blA dtmA dsmA []).terminalOutput = none) ∧
    ((processCore engD clA blA dtmA dsmA []).error =
        some (RunError.rasterSampling dsmA.name 1) ∧
      (processCore engD clA blA dtmA dsmA []).registered =
        (bandList dtmA.bandCount).map dtmFieldName ++
          (bandList (1 - 1)).map (fun _ => engD.pyRepr dsmA.name ++ "+_DSM") ∧
      (processCore engD clA blA dtmA dsmA []).terminalOutput = none) :=
  ⟨⟨by decide, by decide, by decide, by decide, by decide⟩,
    (C8_theorem engB clA blA dtmA dsmA [] 2 (by decide)).1 (by decide) (by decide)
      (fun b h1 h2 => by
        have hb : b = 1 := by omega
        subst hb
        decide),
    (C8_theorem engD clA blA dtmA dsmA [] 1 (by decide)).2 (by decide) (by decide)
      (fun _ => rfl) (by decide)
      (fun b h1 h2 => by omega)⟩

/-- C9: cancellation is only detected after all four selection prompts have
been presented: even when the operator cancels the centerline prompt, all
four prompts are shown before the run aborts with the cancellation error. -/
theorem C9_theorem (eng : Engine) (op : String → Option String) (ws : List Dataset)
    (hv : 2 ≤ (vectorsOf ws).length) (hr : 2 ≤ (rastersOf ws).length)
    (hc : op centerlineTitle = none) :
    (run eng op ws).promptsShown = [centerlineTitle, bufferTitle, dtmTitle, dsmTitle] ∧
    (run eng op ws).error = some RunError.selectionCancelled := by
  have hsel : (selectLayer op VectorLayer.name (vectorsOf ws) centerlineTitle).2 = none := by
    simp [selectLayer, hc]
  rw [run_cancelled_eq eng op ws hv hr (Or.inl hsel)]
  exact ⟨rfl, rfl⟩

/-- C9 (witness): cancelling the centerline prompt in the concrete scenario
still shows all four prompts. -/
theorem C9_witness :
    (2 ≤ (vectorsOf wsA).length ∧ 2 ≤ (rastersOf wsA).length ∧
      opCancelCenter centerlineTitle = none) ∧
    ((run engA opCancelCenter wsA).promptsShown =
      [centerlineTitle, bufferTitle, dtmTitle, dsmTitle] ∧
     (run engA opCancelCenter wsA).error = some RunError.selectionCancelled) :=
  ⟨⟨by decide, by decide, by decide⟩,
    C9_theorem engA opCancelCenter wsA (by decide) (by decide) (by decide)⟩

/-- C10 (counterexample): the claim says a zero-band terrain raster makes
the run fail before producing any DSM output; when the surface raster also
reports zero bands, both loops run zero iterations, the unassigned variable
is never read, and the run completes without error. -/
theorem C10_counterexample :
    dtmZero.bandCount = 0 ∧
    (run engA opZero wsZero).error = none ∧
    (run engA opZero wsZero).registered = [] :=
  ⟨rfl, rfl, rfl⟩

/-- C10 (amended): if the terrain raster reports zero bands and the surface
raster at least one, the terrain loop runs no iteration, the first surface
iteration reads the never-assigned output variable, and the run fails with a
`NameError` before issuing any sampling call, registering nothing and
producing no output. -/
theorem C10_theorem (eng : Engine) (cl bl : VectorLayer) (dtm dsm : RasterLayer)
    (prompts : List String) (h0 : dtm.bandCount = 0) (h1 : 1 ≤ dsm.bandCount) :
    (processCore eng cl bl dtm dsm prompts).error = some RunError.nameErrorRasterValues ∧
    (processCore eng cl bl dtm dsm prompts).registered = [] ∧
    (processCore eng cl bl dtm dsm prompts).terminalOutput = none ∧
    sampleCallCount (processCore eng cl bl dtm dsm prompts).trace = 0 := by
  have hfb : (dtmLoopResult eng cl bl dtm).failedBand = none := by
    unfold dtmLoopResult
    rw [h0]
    rfl
  have hlast : (dtmLoopResult eng cl bl dtm).lastOutput = none := by
    unfold dtmLoopResult
    rw [h0]
    rfl
  have htr : (dtmLoopResult eng cl bl dtm).trace = [] := by
    unfold dtmLoopResult
    rw [h0]
    rfl
  have hreg : (dtmLoopResult eng cl bl dtm).registered = [] := by
    unfold dtmLoopResult
    rw [h0]
    rfl
  rw [processCore_eq_of_nameError eng cl bl dtm dsm prompts hfb (by omega) hlast]
  refine ⟨rfl, hreg, rfl, ?_⟩
  show sampleCallCount (coreFixedTrace eng cl bl ++ (dtmLoopResult eng cl bl dtm).trace) = 0
  rw [htr, sampleCallCount_fixed]
  rfl

/-- C10 (witness): the amended statement instantiated on the concrete
scenario with a zero-band DTM and a one-band DSM. -/
theorem C10_witness :
    (dtmZero.bandCount = 0 ∧ 1 ≤ dsmA.bandCount) ∧
    ((processCore engA clA blA dtmZero dsmA []).error =
      some RunError.nameErrorRasterValues ∧
     (processCore engA clA blA dtmZero dsmA []).registered = [] ∧
     (processCore engA clA blA dtmZero dsmA []).terminalOutput = none ∧
     sampleCallCount (processCore engA clA blA dtmZero dsmA []).trace = 0) :=
  ⟨⟨rfl, by decide⟩, C10_theorem engA clA blA dtmZero dsmA [] rfl (by decide)⟩

end DSMDTM
